import Mathlib

/-!
Verification of the polyb lead-orchestration services.

Shallow embedding of `src/call_orchestrator.py` and `src/crm_connector.py`.

JSON-like data is modelled by `JsonVal`; Python dicts are modelled by
association lists with unique keys, where assignment (`d[k] = v`) is
`dictInsert` (update in place if the key is present, append otherwise) and
`d.get(k, default)` is `lookupField` followed by `Option.getD`.

External HTTP services are modelled by records holding the response each
endpoint would give; the ambient wall clock (`datetime.datetime.now`
formatted as `%Y%m%d%H%M%S`) is passed as an explicit `now : String`
argument.  Each operation returns, alongside its Python return value, the
list of HTTP requests it issued, in order.  A Python function that can let
an exception escape to its caller is embedded as `Except String`-valued;
a function that catches all exceptions returns a plain value.
-/

namespace Polyb

/-- JSON-like values: the payloads travelling between the services. -/
inductive JsonVal where
  | null
  | bool (b : Bool)
  | num (n : Int)
  | str (s : String)
  | arr (items : List JsonVal)
  | obj (fields : List (String × JsonVal))
deriving Repr

/-- Python dict lookup on an association list (keys are unique). -/
def lookupField : List (String × JsonVal) → String → Option JsonVal
  | [], _ => none
  | (k, v) :: rest, key => if k = key then some v else lookupField rest key

/-- Python dict assignment `d[k] = v`: update in place if present, else append. -/
def dictInsert (key : String) (v : JsonVal) : List (String × JsonVal) → List (String × JsonVal)
  | [] => [(key, v)]
  | (k, w) :: rest => if k = key then (key, v) :: rest else (k, w) :: dictInsert key v rest

/-- Python truthiness of a JSON value (`bool(x)`). -/
def pyTruthy : JsonVal → Bool
  | .null => false
  | .bool b => b
  | .num n => n != 0
  | .str s => s != ""
  | .arr items => !items.isEmpty
  | .obj fields => !fields.isEmpty

/-- Python `x or y`: the first operand if truthy, else the second. -/
def pyOr (a b : JsonVal) : JsonVal := if pyTruthy a then a else b

/-- Python `str(x)` / f-string rendering of a scalar.  Container rendering is
not modelled (no container reaches a `str` call on the executed paths). -/
def pyStr : JsonVal → String
  | .null => "None"
  | .bool true => "True"
  | .bool false => "False"
  | .num n => toString n
  | .str s => s
  | .arr _ => "<list>"
  | .obj _ => "<dict>"

/-- Python `x == 0` for a JSON value (`0 == 0`, `False == 0` hold in Python). -/
def pyEqZero : JsonVal → Bool
  | .num n => n == 0
  | .bool b => !b
  | _ => false

/-- Python `x == s` for a string literal `s`: false on non-strings. -/
def isStrEq (j : JsonVal) (s : String) : Bool :=
  match j with
  | .str t => t == s
  | _ => false

/-- Python `s[-n:]`: the last `n` characters of `s` (all of `s` if shorter). -/
def takeRight (s : String) (n : Nat) : String :=
  ⟨s.data.drop (s.data.length - n)⟩

/-- Python `d.get(k, default)` on a JSON value: raises `AttributeError`
when the receiver is not a dict. -/
def pyDictGet (j : JsonVal) (key : String) (dflt : JsonVal) : Except String JsonVal :=
  match j with
  | .obj fields => .ok ((lookupField fields key).getD dflt)
  | _ => .error "AttributeError: object has no attribute get"

/-- Python `d[k]` on a JSON value: `KeyError` when absent, `TypeError` on a
non-dict receiver. -/
def pySubscript (j : JsonVal) (key : String) : Except String JsonVal :=
  match j with
  | .obj fields =>
      match lookupField fields key with
      | some v => .ok v
      | none => .error ("KeyError: " ++ key)
  | _ => .error "TypeError: object is not subscriptable"

/-- Python `xs[0]` on a JSON value: `IndexError` when empty, `TypeError` on a
non-list receiver. -/
def pyHead (j : JsonVal) : Except String JsonVal :=
  match j with
  | .arr (x :: _) => .ok x
  | .arr [] => .error "IndexError: list index out of range"
  | _ => .error "TypeError: object is not subscriptable"

/-! ## `parse_json` — the payload flattener (`call_orchestrator.py`, lines 34-52)

The Python function recurses into dicts (joining keys with `.`, or using the
bare key when the prefix is empty) and lists (appending `[i]`), and records
each scalar leaf under its path in the shared `result` dict.  The loops over
dict entries and list elements become the mutual helpers below. -/

mutual

/-- Function `parse_json(data, parent_key, result)`: flatten a nested value into `result`. -/
def parse_json (data : JsonVal) (parent_key : String)
    (result : List (String × JsonVal)) : List (String × JsonVal) :=
  match data with
  | .obj fields => parse_json_fields fields parent_key result
  | .arr items => parse_json_items items parent_key 0 result
  | _ => dictInsert parent_key data result

/-- The `for key, value in data.items()` loop of `parse_json`. -/
def parse_json_fields (fields : List (String × JsonVal)) (parent_key : String)
    (result : List (String × JsonVal)) : List (String × JsonVal) :=
  match fields with
  | [] => result
  | (key, value) :: rest =>
      parse_json_fields rest parent_key
        (parse_json value (if parent_key = "" then key else parent_key ++ "." ++ key) result)

/-- The `for index, item in enumerate(data)` loop of `parse_json`. -/
def parse_json_items (items : List JsonVal) (parent_key : String) (index : Nat)
    (result : List (String × JsonVal)) : List (String × JsonVal) :=
  match items with
  | [] => result
  | item :: rest =>
      parse_json_items rest parent_key (index + 1)
        (parse_json item (parent_key ++ "[" ++ toString index ++ "]") result)

end

example : parse_json (.obj [("a", .obj [("b", .num 1)])]) "" [] = [("a.b", .num 1)] := by
  simp [parse_json, parse_json_fields, parse_json_items, dictInsert]

example : parse_json (.obj [("a", .arr [.num 1, .num 2])]) "" []
    = [("a[0]", .num 1), ("a[1]", .num 2)] := by
  simp [parse_json, parse_json_fields, parse_json_items, dictInsert]
  rfl

/-! ## The EspoCRM API client (`crm_connector.py`)

`EspoAPI.request` (lines 74-102) issues an HTTP request and raises
`EspoAPIError` on a non-200 status code or an empty response body; otherwise
the caller reads `response.json()`.  We model an HTTP response by its status
code, its `X-Status-Reason` header and its parsed body (`none` = empty
content), and `request` by the `Except`-valued check the Python code
performs on it.  The CRM server is the triple of responses it would give to
the three requests the workflow can issue. -/

/-- An HTTP response from the CRM: status code, `X-Status-Reason` header,
and parsed JSON body (`none` models empty `response.content`). -/
structure HttpResp where
  statusCode : Nat
  xStatusReason : Option String
  content : Option JsonVal

/-- Method `EspoAPI.request`: raise `EspoAPIError` on non-200 or empty body,
otherwise hand back the parsed body (`response.json()`). -/
def espoRequest (resp : HttpResp) : Except String JsonVal :=
  if resp.statusCode ≠ 200 then
    .error ("Wrong request, status code " ++ toString resp.statusCode ++ ", reason: "
      ++ resp.xStatusReason.getD "Unknown Error")
  else
    match resp.content with
    | none => .error "Empty response content"
    | some j => .ok j

/-- The CRM server, by the responses it gives to each sub-step's request. -/
structure CrmServer where
  getContactResp : HttpResp
  createContactResp : HttpResp
  createLeadResp : HttpResp

/-- An HTTP request issued to the CRM, with the data sent. -/
inductive CrmRequest where
  | getContact (query : List (String × JsonVal))
  | createContact (payload : List (String × JsonVal))
  | createLead (payload : List (String × JsonVal))
deriving Repr

/-- Whether a CRM request is a contact-create. -/
def isCreateContact : CrmRequest → Bool
  | .createContact _ => true
  | _ => false

/-- Whether a CRM request is a lead-create. -/
def isCreateLead : CrmRequest → Bool
  | .createLead _ => true
  | _ => false

/-- The lead name sent to the CRM
(`f"{payload.get('name', 'Lead')} - {datetime.datetime.now().strftime('%Y%m%d%H%M%S')}"`,
line 120): the incoming name (default `"Lead"`) suffixed with the
second-resolution creation timestamp. -/
def lead_name (payload : List (String × JsonVal)) (now : String) : String :=
  pyStr ((lookupField payload "name").getD (.str "Lead")) ++ " - " ++ now

/-- The payload `create_lead` actually POSTs: the incoming payload with its
`name` field overwritten by `lead_name`. -/
def lead_sent_payload (payload : List (String × JsonVal)) (now : String) :
    List (String × JsonVal) :=
  dictInsert "name" (.str (lead_name payload now)) payload

/-- Method `EspoCrmClient.create_lead` (lines 119-128): timestamp the name, POST the
lead, and catch every failure into `{"status": "error", "message": ...}`. -/
def create_lead (srv : CrmServer) (payload : List (String × JsonVal)) (now : String) :
    JsonVal × List CrmRequest :=
  let sent := lead_sent_payload payload now
  match espoRequest srv.createLeadResp with
  | .ok data => (.obj [("status", .str "success"), ("lead", data)], [.createLead sent])
  | .error e => (.obj [("status", .str "error"), ("message", .str e)], [.createLead sent])

/-- Method `EspoCrmClient.create_contact` (lines 130-144): POST the contact payload
and catch every failure into `{"status": "error", "message": ...}`. -/
def create_contact (srv : CrmServer) (first_name last_name phone_number : JsonVal) :
    JsonVal × List CrmRequest :=
  let payload : List (String × JsonVal) :=
    [("name", .str (pyStr first_name ++ " " ++ pyStr last_name)),
     ("firstName", first_name),
     ("lastName", last_name),
     ("phoneNumber", phone_number)]
  match espoRequest srv.createContactResp with
  | .ok data => (.obj [("status", .str "success"), ("contact", data)], [.createContact payload])
  | .error e => (.obj [("status", .str "error"), ("message", .str e)], [.createContact payload])

/-- The `where`-clause query `get_contact` sends (lines 147-151). -/
def contact_query (phone_number : JsonVal) : List (String × JsonVal) :=
  [("where[0][type]", .str "equals"),
   ("where[0][attribute]", .str "phoneNumber"),
   ("where[0][value]", phone_number)]

/-- Python `d["status"] != "success"` on a sub-result dict. -/
def statusNotSuccess (j : JsonVal) : Bool :=
  match j with
  | .obj fields =>
      match lookupField fields "status" with
      | some (.str s) => s != "success"
      | _ => true
  | _ => true

/-- Method `EspoCrmClient.get_contact` (lines 146-172): look up the contact by phone
number; on a query failure return an error dict.  With zero matches, create
the contact (aborting with its error dict if that does not report
`"success"`) and then a lead; with matches, reuse the first matched contact
as-is and create a lead.  `data.get("total", 0)` and `data["list"][0]` sit
outside the `try` block, so their Python faults escape (the `Except.error`
side). -/
def get_contact (srv : CrmServer) (lead_nm last_name phone_number : JsonVal)
    (now : String) : Except String JsonVal × List CrmRequest :=
  let query := contact_query phone_number
  match espoRequest srv.getContactResp with
  | .error e => (.ok (.obj [("status", .str "error"), ("message", .str e)]), [.getContact query])
  | .ok data =>
    match pyDictGet data "total" (.num 0) with
    | .error e => (.error e, [.getContact query])
    | .ok total =>
      if pyEqZero total then
        let contact_step := create_contact srv lead_nm last_name phone_number
        if statusNotSuccess contact_step.1 then
          (.ok contact_step.1, .getContact query :: contact_step.2)
        else
          let lead_step := create_lead srv
            [("firstName", lead_nm), ("lastName", last_name), ("phoneNumber", phone_number)] now
          (.ok (.obj [("status", .str "created"), ("contact", contact_step.1),
              ("lead", lead_step.1)]),
            .getContact query :: (contact_step.2 ++ lead_step.2))
      else
        match pySubscript data "list" with
        | .error e => (.error e, [.getContact query])
        | .ok lst =>
          match pyHead lst with
          | .error e => (.error e, [.getContact query])
          | .ok contact =>
            let lead_step := create_lead srv
              [("firstName", lead_nm), ("lastName", last_name), ("phoneNumber", phone_number)] now
            (.ok (.obj [("status", .str "success"), ("contact", contact),
                ("lead", lead_step.1)]),
              .getContact query :: lead_step.2)

/-- Handler `push_to_crm` (lines 175-189): extract the three fields (`dict.get`, so
`None` when absent), run the workflow, wrap a normal result as
`{"status": "pushed", "crm_result": ...}`, and catch any escaping exception
into `{"status": "error", "message": ...}`.  The returned value is always a
plain dict: no exception crosses the bus boundary. -/
def push_to_crm (srv : CrmServer) (params : List (String × JsonVal)) (now : String) :
    JsonVal × List CrmRequest :=
  let first_name := (lookupField params "firstName").getD .null
  let last_name := (lookupField params "lastName").getD .null
  let phone := (lookupField params "phoneNumber").getD .null
  match get_contact srv first_name last_name phone now with
  | (.ok result, reqs) => (.obj [("status", .str "pushed"), ("crm_result", result)], reqs)
  | (.error e, reqs) => (.obj [("status", .str "error"), ("message", .str e)], reqs)

/-! Accessors used to state properties of the returned dicts. -/

/-- The top-level `status` field of a returned mapping, when it is a string. -/
def topStatus (j : JsonVal) : Option String :=
  match j with
  | .obj fields =>
      match lookupField fields "status" with
      | some (.str s) => some s
      | _ => none
  | _ => none

/-- The `crm_result` field of the mapping `push_to_crm` returns. -/
def crmResultOf (j : JsonVal) : Option JsonVal :=
  match j with
  | .obj fields => lookupField fields "crm_result"
  | _ => none

/-- The named field of a mapping, when the mapping is a dict. -/
def fieldOf (j : JsonVal) (key : String) : Option JsonVal :=
  match j with
  | .obj fields => lookupField fields key
  | _ => none

/-! ## The call orchestrator (`call_orchestrator.py`)

`start_call` flattens the event under `result`, resolves the three required
fields through their lead-shaped / contact-shaped alias pairs with Python
`or`, aborts with a warning when any resolved value is falsy, queries the
telephony status (treating a failed query as `{"status": "idle"}`), and
places a call via `make_call` only when the status is `"idle"`.  `make_call`
truncates the number to its last 9 characters before POSTing.  The telephony
endpoint is modelled by the (parsed) reply to a status query (`none` = the
request or its JSON decoding raised) and the reply to a call placement. -/

/-- The telephony endpoint: parsed reply to `get_status` (`none` models a
request/decoding exception) and parsed reply to a `call` action (`none`
models a `RequestException`, after which `make_call` returns `None`). -/
structure TelephonyEnv where
  statusResp : Option JsonVal
  callResp : Option JsonVal

/-- An HTTP request issued to the telephony endpoint. -/
inductive TelRequest where
  | getStatus
  | placeCall (number : String)
deriving Repr, DecidableEq

/-- Whether a telephony request is a call placement. -/
def isPlaceCall : TelRequest → Bool
  | .placeCall _ => true
  | _ => false

/-- Function `make_call` (lines 55-77): truncate the number to its last 9 characters
(`number[-9:]`), POST the call action, and return the parsed reply, or
`None` on any request failure. -/
def make_call (env : TelephonyEnv) (number : String) : Option JsonVal × List TelRequest :=
  let number9 := takeRight number 9
  (env.callResp, [.placeCall number9])

/-- Field resolution, line 90: `parsed_data.get('crm_result.lead.lead.id') or
parsed_data.get('crm_result.contact.id')`. -/
def resolved_lead_id (parsed : List (String × JsonVal)) : JsonVal :=
  pyOr ((lookupField parsed "crm_result.lead.lead.id").getD .null)
    ((lookupField parsed "crm_result.contact.id").getD .null)

/-- Field resolution, line 91: the phone number through its two aliases. -/
def resolved_number_id (parsed : List (String × JsonVal)) : JsonVal :=
  pyOr ((lookupField parsed "crm_result.lead.lead.phoneNumber").getD .null)
    ((lookupField parsed "crm_result.contact.phoneNumber").getD .null)

/-- Field resolution, line 92: `createdById` through its two aliases. -/
def resolved_created_by_id (parsed : List (String × JsonVal)) : JsonVal :=
  pyOr ((lookupField parsed "crm_result.lead.lead.createdById").getD .null)
    ((lookupField parsed "crm_result.contact.createdById").getD .null)

/-- The flattened event `start_call` works on: `parse_json(params.get('result', {}))`. -/
def flattened_event (params : List (String × JsonVal)) : List (String × JsonVal) :=
  parse_json ((lookupField params "result").getD (.obj [])) "" []

/-- Handler `start_call` (lines 80-121).  Returns the Python outcome (`.ok ()` for a
normal return, `.error` when a Python fault escapes to the bus) together
with the telephony requests issued, in order.  When the three resolved
fields are not all truthy it returns at once with a warning, issuing no
request.  A failed status query is replaced by `{"status": "idle"}`
(fail-open).  `make_call` is invoked exactly when
`current_status in ["idle"]`; slicing a non-string number raises
`TypeError` before any placement request is issued. -/
def start_call (env : TelephonyEnv) (params : List (String × JsonVal)) :
    Except String Unit × List TelRequest :=
  let parsed := flattened_event params
  let lead_id := resolved_lead_id parsed
  let number_id := resolved_number_id parsed
  let created_by_id := resolved_created_by_id parsed
  if !(pyTruthy lead_id && pyTruthy number_id && pyTruthy created_by_id) then
    (.ok (), [])
  else
    let status_response := env.statusResp.getD (.obj [("status", .str "idle")])
    match pyDictGet status_response "status" (.str "idle") with
    | .error e => (.error e, [.getStatus])
    | .ok current_status =>
      if isStrEq current_status "idle" then
        match number_id with
        | .str s => (.ok (), .getStatus :: (make_call env s).2)
        | _ => (.error "TypeError: object is not subscriptable", [.getStatus])
      else
        (.ok (), [.getStatus])

/-! ## Claims about the call orchestrator -/

/-- C6: when any one of the three required fields (leadId, phoneNumber,
createdById) is missing after alias resolution — both its lead-shaped and
contact-shaped alias keys absent from the flattened event — `start_call`
terminates normally (warning only, no error surfaced) and issues zero HTTP
requests to the telephony endpoint. -/
theorem start_call_missing_field_no_requests (env : TelephonyEnv)
    (params : List (String × JsonVal))
    (h : (lookupField (flattened_event params) "crm_result.lead.lead.id" = none ∧
          lookupField (flattened_event params) "crm_result.contact.id" = none) ∨
         (lookupField (flattened_event params) "crm_result.lead.lead.phoneNumber" = none ∧
          lookupField (flattened_event params) "crm_result.contact.phoneNumber" = none) ∨
         (lookupField (flattened_event params) "crm_result.lead.lead.createdById" = none ∧
          lookupField (flattened_event params) "crm_result.contact.createdById" = none)) :
    start_call env params = (.ok (), []) := by
  rcases h with ⟨h1, h2⟩ | ⟨h1, h2⟩ | ⟨h1, h2⟩ <;>
    simp [start_call, resolved_lead_id, resolved_number_id, resolved_created_by_id,
      pyOr, pyTruthy, h1, h2]

/-- Witness for C6 at a concrete event lacking `createdById` under both
aliases. -/
theorem start_call_missing_field_no_requests_witness :
    start_call ⟨some (.obj [("status", .str "idle")]), some .null⟩
      [("result", .obj [("crm_result", .obj [("contact", .obj
        [("id", .str "c1"), ("phoneNumber", .str "777123456")])])])] = (.ok (), []) :=
  start_call_missing_field_no_requests _ _ (Or.inr (Or.inr (by constructor <;> rfl)))

/-- C9: even when required-field keys are present in the flattened mapping,
a falsy resolved value (null, 0, empty string, false) is treated as missing:
`start_call` returns at once and issues zero HTTP requests. -/
theorem start_call_falsy_field_no_requests (env : TelephonyEnv)
    (params : List (String × JsonVal))
    (h : pyTruthy (resolved_lead_id (flattened_event params)) = false ∨
         pyTruthy (resolved_number_id (flattened_event params)) = false ∨
         pyTruthy (resolved_created_by_id (flattened_event params)) = false) :
    start_call env params = (.ok (), []) := by
  rcases h with h1 | h1 | h1 <;> simp [start_call, h1]

/-- Witness for C9: all three lead-shaped keys present, `phoneNumber`
present but the empty string (and no contact-shaped fallback), so zero
requests are issued. -/
theorem start_call_falsy_field_no_requests_witness :
    start_call ⟨some (.obj [("status", .str "idle")]), some .null⟩
      [("result", .obj [("crm_result", .obj [("lead", .obj [("lead", .obj
        [("id", .str "L1"), ("phoneNumber", .str ""), ("createdById", .str "u1")])])])])]
      = (.ok (), []) :=
  start_call_falsy_field_no_requests _ _ (Or.inr (Or.inl (by rfl)))

/-- C5: with all three required fields resolved to truthy values (and the
phone number a string, as the slicing in `make_call` presumes) and the
status query answered by a dict, a placement request is issued iff the
observed status is `"idle"`; when issued it is exactly one request carrying
the number truncated to its last 9 characters, and when the status is
non-`"idle"` zero placement requests are issued. -/
theorem start_call_gating (env : TelephonyEnv) (params : List (String × JsonVal))
    (s : String) (fs : List (String × JsonVal))
    (h1 : pyTruthy (resolved_lead_id (flattened_event params)) = true)
    (h2 : resolved_number_id (flattened_event params) = .str s)
    (hs : s ≠ "")
    (h3 : pyTruthy (resolved_created_by_id (flattened_event params)) = true)
    (hresp : env.statusResp.getD (.obj [("status", .str "idle")]) = .obj fs) :
    (start_call env params).2.filter isPlaceCall =
      (if isStrEq ((lookupField fs "status").getD (.str "idle")) "idle"
       then [.placeCall (takeRight s 9)] else []) := by
  have h2t : pyTruthy (resolved_number_id (flattened_event params)) = true := by
    rw [h2]; simpa [pyTruthy] using hs
  have hs' : pyTruthy (.str s) = true := by simpa [pyTruthy] using hs
  cases hst : isStrEq ((lookupField fs "status").getD (.str "idle")) "idle" <;>
    simp [start_call, h1, h2t, h3, h2, hresp, pyDictGet, hst, make_call, isPlaceCall, hs']

/-- Witness for C5 at a concrete busy-status reply: zero placements. -/
theorem start_call_gating_witness :
    (start_call ⟨some (.obj [("status", .str "busy")]), some .null⟩
      [("result", .obj [("crm_result", .obj [("lead", .obj [("lead", .obj
        [("id", .str "L1"), ("phoneNumber", .str "34777123456"),
         ("createdById", .str "u1")])])])])]).2.filter isPlaceCall = [] := by
  have h := start_call_gating ⟨some (.obj [("status", .str "busy")]), some .null⟩
    [("result", .obj [("crm_result", .obj [("lead", .obj [("lead", .obj
      [("id", .str "L1"), ("phoneNumber", .str "34777123456"),
       ("createdById", .str "u1")])])])])]
    "34777123456" [("status", .str "busy")]
    (by rfl) (by rfl) (by simp) (by rfl) (by rfl)
  simpa [lookupField, isStrEq] using h

/-- C7: when the status query itself fails (here: the request or its JSON
decoding raises), the failure is treated as status `"idle"` and the
orchestrator proceeds to attempt the call — exactly one placement request
with the truncated number follows the status attempt (fail-open). -/
theorem start_call_fails_open (env : TelephonyEnv) (params : List (String × JsonVal))
    (s : String)
    (h1 : pyTruthy (resolved_lead_id (flattened_event params)) = true)
    (h2 : resolved_number_id (flattened_event params) = .str s)
    (hs : s ≠ "")
    (h3 : pyTruthy (resolved_created_by_id (flattened_event params)) = true)
    (hq : env.statusResp = none) :
    start_call env params = (.ok (), [.getStatus, .placeCall (takeRight s 9)]) := by
  have h2t : pyTruthy (resolved_number_id (flattened_event params)) = true := by
    rw [h2]; simpa [pyTruthy] using hs
  have hs' : pyTruthy (.str s) = true := by simpa [pyTruthy] using hs
  simp [start_call, h1, h2t, h3, h2, hq, pyDictGet, lookupField, isStrEq, make_call, hs']

/-- Witness for C7: a dead telephony endpoint still leads to one placement
request. -/
theorem start_call_fails_open_witness :
    start_call ⟨none, none⟩
      [("result", .obj [("crm_result", .obj [("lead", .obj [("lead", .obj
        [("id", .str "L1"), ("phoneNumber", .str "34777123456"),
         ("createdById", .str "u1")])])])])]
      = (.ok (), [.getStatus, .placeCall "777123456"]) := by
  have h := start_call_fails_open ⟨none, none⟩
    [("result", .obj [("crm_result", .obj [("lead", .obj [("lead", .obj
      [("id", .str "L1"), ("phoneNumber", .str "34777123456"),
       ("createdById", .str "u1")])])])])]
    "34777123456" (by rfl) (by rfl) (by simp) (by rfl) rfl
  simpa using h

/-! ## Claims about the flattener -/

/-- A scalar leaf: neither a dict nor a list. -/
def isScalar : JsonVal → Bool
  | .obj _ => false
  | .arr _ => false
  | _ => true

/-- Flattening a scalar records it under its path. -/
theorem parse_json_scalar (j : JsonVal) (pk : String) (res : List (String × JsonVal))
    (h : isScalar j = true) : parse_json j pk res = dictInsert pk j res := by
  cases j <;> simp_all [parse_json, isScalar]

/-- Inserting a fresh key appends it at the end. -/
theorem dictInsert_of_fresh (k : String) (v : JsonVal) (acc : List (String × JsonVal))
    (h : k ∉ acc.map Prod.fst) : dictInsert k v acc = acc ++ [(k, v)] := by
  induction acc with
  | nil => rfl
  | cons kw rest ih =>
      obtain ⟨k', w⟩ := kw
      simp only [List.map_cons, List.mem_cons] at h
      push_neg at h
      simp [dictInsert, Ne.symm h.1, ih h.2]

/-- Flattening a flat dict (scalar values, unique keys) with empty prefix
just appends its entries to the accumulator. -/
theorem parse_json_fields_flat (d : List (String × JsonVal)) :
    ∀ acc : List (String × JsonVal),
      (∀ kv ∈ d, isScalar kv.2 = true) →
      (d.map Prod.fst).Nodup →
      (∀ k ∈ d.map Prod.fst, k ∉ acc.map Prod.fst) →
      parse_json_fields d "" acc = acc ++ d := by
  induction d with
  | nil => intro acc _ _ _; simp [parse_json_fields]
  | cons kv rest ih =>
      obtain ⟨k, v⟩ := kv
      intro acc hs hn hd
      have hv : isScalar v = true := hs (k, v) (by simp)
      have hk : k ∉ acc.map Prod.fst := hd k (by simp)
      have hn' : (k :: rest.map Prod.fst).Nodup := by simpa using hn
      have hknr : k ∉ rest.map Prod.fst := (List.nodup_cons.mp hn').1
      rw [parse_json_fields]
      simp only [reduceIte]
      rw [parse_json_scalar v k acc hv, dictInsert_of_fresh k v acc hk]
      rw [ih (acc ++ [(k, v)]) (fun kw hkw => hs kw (by simp [hkw]))
        ((List.nodup_cons.mp hn').2)
        (by
          intro k' hk'
          simp only [List.map_append, List.map_cons, List.map_nil, List.mem_append,
            List.mem_singleton]
          push_neg
          refine ⟨hd k' (by simp [hk']), ?_⟩
          intro hkk
          exact hknr (hkk ▸ hk'))]
      simp

/-- C8: the flattener maps `{"a":{"b":1}}` to `{"a.b": 1}` and `{"a":[1,2]}`
to `{"a[0]":1, "a[1]":2}` (dict keys joined by `.`, list indices rendered as
`[i]`), and on an already-flat mapping of string keys to scalars it is the
identity, so flattening again yields an equal mapping (idempotence). -/
theorem parse_json_structure_and_idempotence :
    (parse_json (.obj [("a", .obj [("b", .num 1)])]) "" [] = [("a.b", .num 1)]) ∧
    (parse_json (.obj [("a", .arr [.num 1, .num 2])]) "" []
      = [("a[0]", .num 1), ("a[1]", .num 2)]) ∧
    (∀ d : List (String × JsonVal),
      (∀ kv ∈ d, isScalar kv.2 = true) → (d.map Prod.fst).Nodup →
      parse_json (.obj d) "" [] = d) := by
  refine ⟨?_, ?_, ?_⟩
  · simp [parse_json, parse_json_fields, parse_json_items, dictInsert]
  · simp [parse_json, parse_json_fields, parse_json_items, dictInsert]
    rfl
  · intro d hs hn
    rw [parse_json]
    simpa using parse_json_fields_flat d [] hs hn (by simp)

/-- Witness for C8 on a concrete flat mapping: flattening returns it
unchanged. -/
theorem parse_json_structure_and_idempotence_witness :
    parse_json (.obj [("x", .num 5), ("y", .str "a"), ("z", .null)]) "" []
      = [("x", .num 5), ("y", .str "a"), ("z", .null)] :=
  parse_json_structure_and_idempotence.2.2
    [("x", .num 5), ("y", .str "a"), ("z", .null)]
    (by simp [isScalar]) (by simp)

/-! ## Claims about lead naming -/

/-- C2 counterexample: `create_lead` is deterministic in the payload and the
second-resolution timestamp, so two lead-create operations for the same
person issued within the same second send the *same* name — here both send
`"Lead - 20251012083059"` — refuting the claim that the two names are
distinct. -/
theorem lead_name_same_second_collision :
    ¬ (lead_name [("firstName", .str "Ann"), ("lastName", .str "Lee"),
          ("phoneNumber", .str "777123456")] "20251012083059"
        ≠ lead_name [("firstName", .str "Ann"), ("lastName", .str "Lee"),
          ("phoneNumber", .str "777123456")] "20251012083059")
    ∧ lead_name [("firstName", .str "Ann"), ("lastName", .str "Lee"),
        ("phoneNumber", .str "777123456")] "20251012083059" = "Lead - 20251012083059" :=
  ⟨fun h => h rfl, rfl⟩

/-- C2 amended: the lead name is always suffixed with the creation timestamp
at one-second resolution, so two lead-create operations for the same person
issued in *different* seconds send distinct names; within the same second
the names coincide (no counter disambiguates them). -/
theorem lead_name_distinct_across_seconds (payload : List (String × JsonVal))
    (t1 t2 : String) (h : t1 ≠ t2) :
    lead_name payload t1 ≠ lead_name payload t2 := by
  intro he
  apply h
  have hd : (pyStr ((lookupField payload "name").getD (.str "Lead")) ++ " - ").data
        ++ t1.data
      = (pyStr ((lookupField payload "name").getD (.str "Lead")) ++ " - ").data
        ++ t2.data := by
    have := congrArg String.data he
    simpa [lead_name, String.data_append, List.append_assoc] using this
  exact String.ext (List.append_cancel_left hd)

/-- Witness for C2's amended claim at two concrete adjacent seconds. -/
theorem lead_name_distinct_across_seconds_witness :
    lead_name [("firstName", .str "Ann")] "20251012083059"
      ≠ lead_name [("firstName", .str "Ann")] "20251012083100" :=
  lead_name_distinct_across_seconds [("firstName", .str "Ann")]
    "20251012083059" "20251012083100" (by decide)

/-! ## Claims about the CRM upsert workflow -/

/-- The status of the CRM workflow result nested under `crm_result` in the
mapping `push_to_crm` returns. -/
def workflowStatus (j : JsonVal) : Option String :=
  match crmResultOf j with
  | some r => topStatus r
  | none => none

/-- C10: in the zero-match path, when the contact-create sub-step does not
return `"success"` (its HTTP request fails), no lead-create request is
issued and the contact-creation error mapping is returned as the workflow
result. -/
theorem get_contact_contact_failure_skips_lead (srv : CrmServer)
    (a b c : JsonVal) (now : String) (fs : List (String × JsonVal)) (m : String)
    (hget : espoRequest srv.getContactResp = .ok (.obj fs))
    (htotal : pyEqZero ((lookupField fs "total").getD (.num 0)) = true)
    (hcc : espoRequest srv.createContactResp = .error m) :
    (get_contact srv a b c now).2.filter isCreateLead = [] ∧
    (get_contact srv a b c now).1
      = .ok (.obj [("status", .str "error"), ("message", .str m)]) := by
  constructor <;>
    simp [get_contact, hget, htotal, hcc, pyDictGet, create_contact,
      statusNotSuccess, lookupField, isCreateLead]

/-- Witness for C10: a 500 on the contact create after an empty match. -/
theorem get_contact_contact_failure_skips_lead_witness :
    (get_contact ⟨⟨200, none, some (.obj [("total", .num 0)])⟩, ⟨500, none, none⟩,
        ⟨200, none, some (.obj [("id", .str "ld1")])⟩⟩
      (.str "Ann") (.str "Lee") (.str "777123456") "20251012083059").2.filter isCreateLead = []
    ∧ (get_contact ⟨⟨200, none, some (.obj [("total", .num 0)])⟩, ⟨500, none, none⟩,
        ⟨200, none, some (.obj [("id", .str "ld1")])⟩⟩
      (.str "Ann") (.str "Lee") (.str "777123456") "20251012083059").1
      = .ok (.obj [("status", .str "error"),
          ("message", .str "Wrong request, status code 500, reason: Unknown Error")]) :=
  get_contact_contact_failure_skips_lead _ _ _ _ _ _ _ rfl rfl rfl

/-- C3 counterexample: a push matching zero contacts whose contact-create
sub-step answers 500 issues zero lead-create requests and yields workflow
status `"error"`, not `"created"` — refuting the claim as universally
stated. -/
theorem push_zero_match_contact_failure_cex :
    (push_to_crm ⟨⟨200, none, some (.obj [("total", .num 0)])⟩, ⟨500, none, none⟩,
        ⟨200, none, some (.obj [("id", .str "ld1")])⟩⟩
      [("firstName", .str "Ann"), ("lastName", .str "Lee"),
       ("phoneNumber", .str "777123456")] "20251012083059").2.filter isCreateLead = []
    ∧ workflowStatus (push_to_crm ⟨⟨200, none, some (.obj [("total", .num 0)])⟩,
        ⟨500, none, none⟩, ⟨200, none, some (.obj [("id", .str "ld1")])⟩⟩
      [("firstName", .str "Ann"), ("lastName", .str "Lee"),
       ("phoneNumber", .str "777123456")] "20251012083059").1 = some "error" :=
  ⟨rfl, rfl⟩

/-- C3 amended: a push whose contact query succeeds with zero matches *and
whose contact-create sub-step succeeds* issues exactly one contact-create
and exactly one lead-create request (the latter regardless of its own
outcome) and yields workflow status `"created"`. -/
theorem push_zero_match_creates_contact_and_lead (srv : CrmServer)
    (params : List (String × JsonVal)) (now : String)
    (fs : List (String × JsonVal)) (cbody : JsonVal)
    (hget : espoRequest srv.getContactResp = .ok (.obj fs))
    (htotal : pyEqZero ((lookupField fs "total").getD (.num 0)) = true)
    (hcc : espoRequest srv.createContactResp = .ok cbody) :
    ((push_to_crm srv params now).2.filter isCreateContact).length = 1 ∧
    ((push_to_crm srv params now).2.filter isCreateLead).length = 1 ∧
    workflowStatus (push_to_crm srv params now).1 = some "created" := by
  cases hl : espoRequest srv.createLeadResp <;>
    refine ⟨?_, ?_, ?_⟩ <;>
      simp [push_to_crm, get_contact, hget, htotal, hcc, hl, pyDictGet,
        create_contact, create_lead, statusNotSuccess, lookupField,
        isCreateContact, isCreateLead, workflowStatus, crmResultOf, topStatus]

/-- Witness for C3's amended claim on a fully healthy CRM. -/
theorem push_zero_match_creates_contact_and_lead_witness :
    ((push_to_crm ⟨⟨200, none, some (.obj [("total", .num 0)])⟩,
        ⟨200, none, some (.obj [("id", .str "c1")])⟩,
        ⟨200, none, some (.obj [("id", .str "ld1")])⟩⟩
      [("firstName", .str "Ann"), ("lastName", .str "Lee"),
       ("phoneNumber", .str "777123456")] "20251012083059").2.filter isCreateContact).length = 1
    ∧ ((push_to_crm ⟨⟨200, none, some (.obj [("total", .num 0)])⟩,
        ⟨200, none, some (.obj [("id", .str "c1")])⟩,
        ⟨200, none, some (.obj [("id", .str "ld1")])⟩⟩
      [("firstName", .str "Ann"), ("lastName", .str "Lee"),
       ("phoneNumber", .str "777123456")] "20251012083059").2.filter isCreateLead).length = 1
    ∧ workflowStatus (push_to_crm ⟨⟨200, none, some (.obj [("total", .num 0)])⟩,
        ⟨200, none, some (.obj [("id", .str "c1")])⟩,
        ⟨200, none, some (.obj [("id", .str "ld1")])⟩⟩
      [("firstName", .str "Ann"), ("lastName", .str "Lee"),
       ("phoneNumber", .str "777123456")] "20251012083059").1 = some "created" :=
  push_zero_match_creates_contact_and_lead _ _ _ _ _ rfl rfl rfl

/-- C4: a push whose contact query succeeds with one or more matches issues
zero contact-create requests and exactly one lead-create request (regardless
of the latter's outcome), returns the first matched contact as-is, and
yields workflow status `"success"`. -/
theorem push_match_reuses_contact (srv : CrmServer)
    (params : List (String × JsonVal)) (now : String)
    (fs : List (String × JsonVal)) (c : JsonVal) (cs : List JsonVal)
    (hget : espoRequest srv.getContactResp = .ok (.obj fs))
    (htotal : pyEqZero ((lookupField fs "total").getD (.num 0)) = false)
    (hlist : lookupField fs "list" = some (.arr (c :: cs))) :
    (push_to_crm srv params now).2.filter isCreateContact = [] ∧
    ((push_to_crm srv params now).2.filter isCreateLead).length = 1 ∧
    workflowStatus (push_to_crm srv params now).1 = some "success" ∧
    (crmResultOf (push_to_crm srv params now).1).bind (fun j => fieldOf j "contact")
      = some c := by
  cases hl : espoRequest srv.createLeadResp <;>
    refine ⟨?_, ?_, ?_, ?_⟩ <;>
      simp [push_to_crm, get_contact, hget, htotal, hlist, hl, pyDictGet,
        pySubscript, pyHead, create_lead, lookupField,
        isCreateContact, isCreateLead, workflowStatus, crmResultOf, topStatus, fieldOf]

/-- Witness for C4: one existing contact is matched and reused. -/
theorem push_match_reuses_contact_witness :
    (push_to_crm ⟨⟨200, none, some (.obj [("total", .num 1),
        ("list", .arr [.obj [("id", .str "c9")]])])⟩,
        ⟨200, none, some (.obj [("id", .str "c1")])⟩,
        ⟨200, none, some (.obj [("id", .str "ld1")])⟩⟩
      [("firstName", .str "Ann"), ("lastName", .str "Lee"),
       ("phoneNumber", .str "777123456")] "20251012083059").2.filter isCreateContact = []
    ∧ ((push_to_crm ⟨⟨200, none, some (.obj [("total", .num 1),
        ("list", .arr [.obj [("id", .str "c9")]])])⟩,
        ⟨200, none, some (.obj [("id", .str "c1")])⟩,
        ⟨200, none, some (.obj [("id", .str "ld1")])⟩⟩
      [("firstName", .str "Ann"), ("lastName", .str "Lee"),
       ("phoneNumber", .str "777123456")] "20251012083059").2.filter isCreateLead).length = 1
    ∧ workflowStatus (push_to_crm ⟨⟨200, none, some (.obj [("total", .num 1),
        ("list", .arr [.obj [("id", .str "c9")]])])⟩,
        ⟨200, none, some (.obj [("id", .str "c1")])⟩,
        ⟨200, none, some (.obj [("id", .str "ld1")])⟩⟩
      [("firstName", .str "Ann"), ("lastName", .str "Lee"),
       ("phoneNumber", .str "777123456")] "20251012083059").1 = some "success"
    ∧ (crmResultOf (push_to_crm ⟨⟨200, none, some (.obj [("total", .num 1),
        ("list", .arr [.obj [("id", .str "c9")]])])⟩,
        ⟨200, none, some (.obj [("id", .str "c1")])⟩,
        ⟨200, none, some (.obj [("id", .str "ld1")])⟩⟩
      [("firstName", .str "Ann"), ("lastName", .str "Lee"),
       ("phoneNumber", .str "777123456")] "20251012083059").1).bind
        (fun j => fieldOf j "contact") = some (.obj [("id", .str "c9")]) :=
  push_match_reuses_contact _ _ _ _ _ _ rfl rfl rfl

/-- C1 counterexample: when the contact query answers 500, the mapping
`push_to_crm` hands the bus caller has top-level status `"pushed"`, not
`"error"` — the error dict sits nested under `crm_result`.  This refutes the
claim that the top-level status field equals `"error"`. -/
theorem push_substep_failure_top_status_cex :
    topStatus (push_to_crm ⟨⟨500, none, none⟩, ⟨200, none, some (.obj [("id", .str "c1")])⟩,
        ⟨200, none, some (.obj [("id", .str "ld1")])⟩⟩
      [("firstName", .str "Ann"), ("lastName", .str "Lee"),
       ("phoneNumber", .str "777123456")] "20251012083059").1 = some "pushed"
    ∧ ("pushed" : String) ≠ "error" :=
  ⟨rfl, by decide⟩

/-- C1 amended: whenever a CRM HTTP sub-step fails (non-200 response or
empty body, surfacing as `EspoAPIError`), `push_to_crm` still returns a
plain mapping — no unhandled exception reaches the bus caller (the
embedding's return type carries no `Except`) — whose top-level status is
`"pushed"`, with the failure converted to `{status: "error", message}` at
the failing sub-step and embedded in `crm_result`: directly when the contact
query or the contact create fails, and as the `lead` sub-result when the
lead create fails in either the zero-match or the matched path. -/
theorem push_substep_failure_embedded_error (srv : CrmServer)
    (params : List (String × JsonVal)) (now : String) :
    (∀ m, espoRequest srv.getContactResp = .error m →
      (push_to_crm srv params now).1 =
        .obj [("status", .str "pushed"),
              ("crm_result", .obj [("status", .str "error"), ("message", .str m)])])
    ∧ (∀ fs m, espoRequest srv.getContactResp = .ok (.obj fs) →
        pyEqZero ((lookupField fs "total").getD (.num 0)) = true →
        espoRequest srv.createContactResp = .error m →
        (push_to_crm srv params now).1 =
          .obj [("status", .str "pushed"),
                ("crm_result", .obj [("status", .str "error"), ("message", .str m)])])
    ∧ (∀ fs cbody m, espoRequest srv.getContactResp = .ok (.obj fs) →
        pyEqZero ((lookupField fs "total").getD (.num 0)) = true →
        espoRequest srv.createContactResp = .ok cbody →
        espoRequest srv.createLeadResp = .error m →
        topStatus (push_to_crm srv params now).1 = some "pushed" ∧
        workflowStatus (push_to_crm srv params now).1 = some "created" ∧
        (crmResultOf (push_to_crm srv params now).1).bind (fun j => fieldOf j "lead")
          = some (.obj [("status", .str "error"), ("message", .str m)]))
    ∧ (∀ fs c cs m, espoRequest srv.getContactResp = .ok (.obj fs) →
        pyEqZero ((lookupField fs "total").getD (.num 0)) = false →
        lookupField fs "list" = some (.arr (c :: cs)) →
        espoRequest srv.createLeadResp = .error m →
        topStatus (push_to_crm srv params now).1 = some "pushed" ∧
        workflowStatus (push_to_crm srv params now).1 = some "success" ∧
        (crmResultOf (push_to_crm srv params now).1).bind (fun j => fieldOf j "lead")
          = some (.obj [("status", .str "error"), ("message", .str m)])) := by
  refine ⟨?_, ?_, ?_, ?_⟩
  · intro m hm
    simp [push_to_crm, get_contact, hm]
  · intro fs m hget htotal hcc
    simp [push_to_crm, get_contact, hget, htotal, hcc, pyDictGet,
      create_contact, statusNotSuccess, lookupField]
  · intro fs cbody m hget htotal hcc hl
    refine ⟨?_, ?_, ?_⟩ <;>
      simp [push_to_crm, get_contact, hget, htotal, hcc, hl, pyDictGet,
        create_contact, create_lead, statusNotSuccess, lookupField,
        topStatus, workflowStatus, crmResultOf, fieldOf]
  · intro fs c cs m hget htotal hlist hl
    refine ⟨?_, ?_, ?_⟩ <;>
      simp [push_to_crm, get_contact, hget, htotal, hlist, hl, pyDictGet,
        pySubscript, pyHead, create_lead, lookupField,
        topStatus, workflowStatus, crmResultOf, fieldOf]

/-- Witness for C1's amended claim: the failing contact query is converted
into a nested error mapping under a `"pushed"` top-level status. -/
theorem push_substep_failure_embedded_error_witness :
    (push_to_crm ⟨⟨500, none, none⟩, ⟨200, none, some (.obj [("id", .str "c1")])⟩,
        ⟨200, none, some (.obj [("id", .str "ld1")])⟩⟩
      [("firstName", .str "Ann"), ("lastName", .str "Lee"),
       ("phoneNumber", .str "777123456")] "20251012083059").1 =
      .obj [("status", .str "pushed"),
            ("crm_result", .obj [("status", .str "error"),
              ("message", .str "Wrong request, status code 500, reason: Unknown Error")])] :=
  (push_substep_failure_embedded_error ⟨⟨500, none, none⟩,
      ⟨200, none, some (.obj [("id", .str "c1")])⟩,
      ⟨200, none, some (.obj [("id", .str "ld1")])⟩⟩
    [("firstName", .str "Ann"), ("lastName", .str "Lee"),
     ("phoneNumber", .str "777123456")] "20251012083059").1
    "Wrong request, status code 500, reason: Unknown Error" rfl

end Polyb
